import Mathlib

/-!
Verification of the Amazing Marvin remote MCP worker against its design
specification.  The definitions below shallowly embed the TypeScript source:

* `src/oauth.ts` (`OAuthHandler`): token exchange, refresh rotation, PKCE
  verification, JWT issuance and verification;
* `src/worker.ts` (`fetch` / `handleMCPRequest`): the JSON-RPC session
  handler with its two transport modes;
* `src/marvin-api.ts` (`MarvinAPIClient`): batch operations and cache
  invalidation.

External platform primitives (the `jose` JWT library, `crypto.subtle`
SHA-256 digests, `crypto.randomUUID`, `Date.now`, the KV store and the
upstream REST API) are modelled either as explicit function parameters or
as idealised executable stand-ins; everything written in the repository
itself is translated statement by statement.
-/

namespace MarvinMCP

/-! ### Token Service (`OAuthHandler.generateJWT` / `OAuthHandler.verifyToken`)

JWT payloads carry `{sub, amazing_marvin_api_key, iat, exp}` (the worker
only ever signs payloads of this shape).  The HS256 signature produced by
`jose.SignJWT.sign` is modelled as an ideal MAC: a tag that is a function
of the secret and of the signed claims, which `jose.jwtVerify` checks for
exact equality before checking the `exp` claim.  Times are in epoch
seconds, as in the source (`Math.floor(Date.now() / 1000)`). -/

structure JWTClaims where
  sub : String
  amazing_marvin_api_key : String
  iat : Nat
  exp : Nat
  deriving Repr, DecidableEq

/-- Ideal MAC standing in for HMAC-SHA256 over the serialized claims:
the tag determines (and is determined by) the secret and the claims. -/
def macOf (secret : String) (c : JWTClaims) : String :=
  "hs256:" ++ secret ++ ":" ++ c.sub ++ ":" ++ c.amazing_marvin_api_key ++ ":"
    ++ toString c.iat ++ ":" ++ toString c.exp

structure JWT where
  claims : JWTClaims
  mac : String
  deriving Repr, DecidableEq

/-- `OAuthHandler.generateJWT`: signs the payload with `alg: HS256`,
with `setIssuedAt()` and `setExpirationTime(24h)` overriding the
`iat` / `exp` claims with the signing time and signing time + 24 hours. -/
def generateJWT (secret : String) (payload : JWTClaims) (nowSec : Nat) : JWT :=
  let c : JWTClaims := { payload with iat := nowSec, exp := nowSec + 24 * 3600 }
  { claims := c, mac := macOf secret c }

/-- `jose.jwtVerify`: throws (modelled by `Except.error`) on a bad
signature or on an expired `exp` claim (`exp ≤ now`), otherwise returns
the decoded payload. -/
def jwtVerify (secret : String) (nowSec : Nat) (t : JWT) : Except String JWTClaims :=
  if t.mac ≠ macOf secret t.claims then .error "signature verification failed"
  else if t.claims.exp ≤ nowSec then .error "JWTExpired"
  else .ok t.claims

/-- `OAuthHandler.verifyToken`: wraps `jose.jwtVerify` in `try/catch`,
returning the decoded claims on success and `null` on any failure. -/
def verifyToken (secret : String) (nowSec : Nat) (t : JWT) : Option JWTClaims :=
  (jwtVerify secret nowSec t).toOption

/-- Helper: an error inside `jwtVerify` is caught and becomes `none`;
nothing propagates past `verifyToken`. -/
theorem verifyToken_none_of_error (secret : String) (nowSec : Nat) (t : JWT)
    (e : String) (h : jwtVerify secret nowSec t = .error e) :
    verifyToken secret nowSec t = none := by
  simp [verifyToken, h, Except.toOption]

/-- C7: access tokens are issued with `exp` exactly 24 hours (86400 s)
after issuance; verification is total (an inner `jose` error yields the
null result, never an exception); and a token presented at or after its
expiry instant is rejected as invalid even though its signature is the
correct MAC for its claims. -/
theorem access_token_verification_total_and_expiry_bounded
    (secret : String) (payload : JWTClaims) (nowSec tCheck : Nat)
    (hLate : nowSec + 86400 ≤ tCheck) :
    (generateJWT secret payload nowSec).claims.exp = nowSec + 86400 ∧
    (generateJWT secret payload nowSec).mac
      = macOf secret (generateJWT secret payload nowSec).claims ∧
    verifyToken secret tCheck (generateJWT secret payload nowSec) = none ∧
    (∀ (t : JWT) (n : Nat) (e : String),
      jwtVerify secret n t = .error e → verifyToken secret n t = none) ∧
    (∀ (t : JWT) (n : Nat),
      verifyToken secret n t = none ∨
      ∃ c, verifyToken secret n t = some c) := by
  refine ⟨by simp [generateJWT], by simp [generateJWT], ?_, ?_, ?_⟩
  · have hexp : nowSec + 86400 ≤ tCheck := hLate
    simp [verifyToken, jwtVerify, generateJWT, Except.toOption, hexp]
  · intro t n e h
    exact verifyToken_none_of_error secret n t e h
  · intro t n
    cases h : verifyToken secret n t with
    | none => exact Or.inl rfl
    | some c => exact Or.inr ⟨c, rfl⟩

/-- Witness for C7 at a concrete issuance time and check time. -/
theorem access_token_verification_total_and_expiry_bounded_witness :
    (generateJWT "s" ⟨"cl", "key", 0, 0⟩ 1000).claims.exp = 1000 + 86400 ∧
    (generateJWT "s" ⟨"cl", "key", 0, 0⟩ 1000).mac
      = macOf "s" (generateJWT "s" ⟨"cl", "key", 0, 0⟩ 1000).claims ∧
    verifyToken "s" 90000 (generateJWT "s" ⟨"cl", "key", 0, 0⟩ 1000) = none ∧
    (∀ (t : JWT) (n : Nat) (e : String),
      jwtVerify "s" n t = .error e → verifyToken "s" n t = none) ∧
    (∀ (t : JWT) (n : Nat),
      verifyToken "s" n t = none ∨ ∃ c, verifyToken "s" n t = some c) :=
  access_token_verification_total_and_expiry_bounded "s" ⟨"cl", "key", 0, 0⟩
    1000 90000 (by decide)

/-! ### Credential Store (`env.TOKENS` KV namespace)

The worker keeps OAuth client registrations under `client:<id>`,
authorization codes under `auth_code:<code>` and refresh tokens under
`refresh_token:<token>` in a single KV namespace.  Each family is
modelled as an association list keyed by the unprefixed identifier.
A `put` overwrites, a `delete` removes, `get` returns the stored value
or `null`.  TTL-based expiry is modelled by the key simply being absent.
Absent form fields (`formData.get` returning `null`) and absent string
properties are modelled as `""`, which has the same JS truthiness and
compares unequal to every non-empty string, exactly like `null` /
`undefined` in the comparisons the source performs. -/

structure ClientReg where
  client_id : String
  client_secret : String
  redirect_uris : List String
  client_name : String
  created_at : Nat
  deriving Repr, DecidableEq

structure AuthCodeData where
  client_id : String
  redirect_uri : String
  api_key : String
  code_challenge : String
  code_challenge_method : String
  created_at : Nat
  deriving Repr, DecidableEq

structure RefreshData where
  client_id : String
  api_key : String
  created_at : Nat
  deriving Repr, DecidableEq

structure TokenStore where
  clients : List (String × ClientReg)
  authCodes : List (String × AuthCodeData)
  refreshTokens : List (String × RefreshData)
  deriving Repr, DecidableEq

/-- `JSON.parse(... ||: empty braces)`: the object whose string
properties are all absent (JS-falsy, modelled as `""`). -/
def emptyAuthData : AuthCodeData :=
  { client_id := "", redirect_uri := "", api_key := "",
    code_challenge := "", code_challenge_method := "", created_at := 0 }

/-- KV `put`: overwrite the binding for `k`. -/
def kvPut {α : Type} (k : String) (v : α) (l : List (String × α)) :
    List (String × α) :=
  (k, v) :: l.filter (fun p => p.1 != k)

/-- KV `delete`: remove the binding for `k`. -/
def kvDelete {α : Type} (k : String) (l : List (String × α)) :
    List (String × α) :=
  l.filter (fun p => p.1 != k)

theorem lookup_filter_out {α : Type} (k : String) (l : List (String × α)) :
    List.lookup k (l.filter (fun p => p.1 != k)) = none := by
  induction l with
  | nil => rfl
  | cons p t ih =>
    obtain ⟨a, b⟩ := p
    by_cases h : a = k
    · have hb : ((a, b).1 != k) = false := by simp [h]
      rw [List.filter_cons, hb]
      exact ih
    · have hb : ((a, b).1 != k) = true := by simp [h]
      rw [List.filter_cons, hb]
      have hk : (k == a) = false := by
        simp only [beq_eq_false_iff_ne]
        exact fun he => h he.symm
      simp [List.lookup, hk, ih]

theorem lookup_filter_ne {α : Type} (k k' : String) (l : List (String × α))
    (h : k' ≠ k) :
    List.lookup k' (l.filter (fun p => p.1 != k)) = List.lookup k' l := by
  induction l with
  | nil => rfl
  | cons p t ih =>
    obtain ⟨a, b⟩ := p
    by_cases hp : a = k
    · have hb : ((a, b).1 != k) = false := by simp [hp]
      have hk : (k' == a) = false := by
        simp only [beq_eq_false_iff_ne]
        exact hp ▸ h
      rw [List.filter_cons, hb]
      simp [List.lookup, hk, ih]
    · have hb : ((a, b).1 != k) = true := by simp [hp]
      rw [List.filter_cons, hb]
      by_cases hq : k' = a
      · simp [List.lookup, hq]
      · have hk : (k' == a) = false := by
          simp only [beq_eq_false_iff_ne]
          exact hq
        simp [List.lookup, hk, ih]

theorem lookup_kvDelete_self {α : Type} (k : String) (l : List (String × α)) :
    List.lookup k (kvDelete k l) = none :=
  lookup_filter_out k l

theorem lookup_kvDelete_ne {α : Type} (k k' : String) (l : List (String × α))
    (h : k' ≠ k) : List.lookup k' (kvDelete k l) = List.lookup k' l :=
  lookup_filter_ne k k' l h

theorem lookup_kvPut_self {α : Type} (k : String) (v : α)
    (l : List (String × α)) : List.lookup k (kvPut k v l) = some v := by
  simp [kvPut, List.lookup]

theorem lookup_kvPut_ne {α : Type} (k k' : String) (v : α)
    (l : List (String × α)) (h : k' ≠ k) :
    List.lookup k' (kvPut k v l) = List.lookup k' l := by
  have hk : (k' == k) = false := by simp [beq_iff_eq, h]
  simp [kvPut, List.lookup, hk, lookup_filter_ne k k' l h]

/-! ### Authorization Flow Engine (`OAuthHandler.handleTokenExchange` /
`OAuthHandler.handleRefreshToken`)

The exchange endpoint receives a form body; each field is `""` when
absent.  `crypto.randomUUID` (the freshly minted refresh token) and
`Date.now()` (milliseconds) enter as explicit parameters, as does
`challengeOf`, the composite platform primitive
`base64url(SHA-256(verifier))` without padding computed by
`crypto.subtle.digest` + `btoa` with URL-safe replacements. -/

structure TokenRequest where
  grant_type : String
  code : String
  refresh_token : String
  client_id : String
  client_secret : String
  redirect_uri : String
  code_verifier : String
  deriving Repr, DecidableEq

structure TokenResponseBody where
  access_token : JWT
  token_type : String
  expires_in : Nat
  refresh_token : String
  scope : String
  deriving Repr, DecidableEq

inductive ExchangeResult where
  | err (status : Nat) (error : String) (description : String)
  | ok (body : TokenResponseBody)
  deriving Repr, DecidableEq

def ExchangeResult.isOk : ExchangeResult → Bool
  | .ok _ => true
  | .err _ _ _ => false

/-- `OAuthHandler.handleRefreshToken`: missing parameters fail
`invalid_request` (400); an unknown or expired token, or a bound-client
mismatch, fails `invalid_grant` (400); otherwise a fresh access token and
a fresh refresh token are issued, the new refresh token is stored and the
presented one deleted (rotation).  The unused `client_secret` parameter of
the source is omitted. -/
def handleRefreshToken (secret : String) (nowMs : Nat) (freshToken : String)
    (refreshToken clientId : String) (s : TokenStore) :
    ExchangeResult × TokenStore :=
  if refreshToken = "" ∨ clientId = "" then
    (.err 400 "invalid_request" "Missing refresh token or client ID", s)
  else
    match List.lookup refreshToken s.refreshTokens with
    | none => (.err 400 "invalid_grant" "Invalid or expired refresh token", s)
    | some tokenData =>
      if tokenData.client_id ≠ clientId then
        (.err 400 "invalid_grant" "Client ID mismatch", s)
      else
        let nowSec := nowMs / 1000
        let accessToken := generateJWT secret
          ⟨clientId, tokenData.api_key, nowSec, nowSec + 24 * 3600⟩ nowSec
        let put1 := kvPut freshToken ⟨clientId, tokenData.api_key, nowMs⟩ s.refreshTokens
        let s1 : TokenStore := { s with refreshTokens := put1 }
        let s2 : TokenStore := { s1 with refreshTokens := kvDelete refreshToken s1.refreshTokens }
        (.ok ⟨accessToken, "Bearer", 86400, freshToken,
          "marvin:read marvin:write"⟩, s2)

/-- Tail of the `authorization_code` exchange after client lookup and
PKCE / client-secret screening: the stored-code presence check
(`!authData.client_id`), the redirect-URI binding check, then issuance of
the token pair, storage of the new refresh token and deletion of the
consumed authorization code. -/
def finishAuthCodeExchange (secret : String) (nowMs : Nat)
    (freshToken : String) (req : TokenRequest) (authData : AuthCodeData)
    (s : TokenStore) : ExchangeResult × TokenStore :=
  if authData.client_id = "" then
    (.err 400 "invalid_grant" "Authorization code expired or invalid", s)
  else if authData.redirect_uri ≠ req.redirect_uri then
    (.err 400 "invalid_grant" "Redirect URI mismatch", s)
  else
    let nowSec := nowMs / 1000
    let accessToken := generateJWT secret
      ⟨req.client_id, authData.api_key, nowSec, nowSec + 24 * 3600⟩ nowSec
    let put1 := kvPut freshToken ⟨req.client_id, authData.api_key, nowMs⟩ s.refreshTokens
    let s1 : TokenStore := { s with refreshTokens := put1 }
    let s2 : TokenStore := { s1 with authCodes := kvDelete req.code s1.authCodes }
    (.ok ⟨accessToken, "Bearer", 86400, freshToken,
      "marvin:read marvin:write"⟩, s2)

/-- `authorization_code` branch of `OAuthHandler.handleTokenExchange`:
client lookup (`invalid_client`, 401, when absent), then the PKCE branch —
taken when the stored code carries a challenge and a verifier was supplied;
the hash comparison only happens when the stored method is `S256` — and
otherwise the client-secret comparison, then the tail checks. -/
def exchangeAuthCode (challengeOf : String → String) (secret : String)
    (nowMs : Nat) (freshToken : String) (req : TokenRequest)
    (s : TokenStore) : ExchangeResult × TokenStore :=
  match List.lookup req.client_id s.clients with
  | none => (.err 401 "invalid_client" "", s)
  | some client =>
    let authData := (List.lookup req.code s.authCodes).getD emptyAuthData
    if authData.code_challenge ≠ "" ∧ req.code_verifier ≠ "" then
      if authData.code_challenge_method = "S256"
          ∧ challengeOf req.code_verifier ≠ authData.code_challenge then
        (.err 400 "invalid_grant" "PKCE verification failed", s)
      else
        finishAuthCodeExchange secret nowMs freshToken req authData s
    else if req.client_secret ≠ "" ∧ client.client_secret ≠ req.client_secret then
      (.err 401 "invalid_client" "", s)
    else
      finishAuthCodeExchange secret nowMs freshToken req authData s

/-- `OAuthHandler.handleTokenExchange`: dispatch on `grant_type`.  The
`catch` clause of the source (malformed form bodies, `server_error` 500)
is outside the model — requests arrive pre-parsed. -/
def handleTokenExchange (challengeOf : String → String) (secret : String)
    (nowMs : Nat) (freshToken : String) (req : TokenRequest)
    (s : TokenStore) : ExchangeResult × TokenStore :=
  if req.grant_type = "refresh_token" then
    handleRefreshToken secret nowMs freshToken req.refresh_token
      req.client_id s
  else if req.grant_type ≠ "authorization_code" ∨ req.code = ""
      ∨ req.client_id = "" then
    (.err 400 "invalid_request" "Missing required parameters", s)
  else
    exchangeAuthCode challengeOf secret nowMs freshToken req s

theorem finishAuthCodeExchange_redirect_mismatch (secret : String)
    (nowMs : Nat) (freshToken : String) (req : TokenRequest)
    (authData : AuthCodeData) (s : TokenStore)
    (hBound : authData.client_id ≠ "")
    (hMismatch : authData.redirect_uri ≠ req.redirect_uri) :
    finishAuthCodeExchange secret nowMs freshToken req authData s
      = (.err 400 "invalid_grant" "Redirect URI mismatch", s) := by
  unfold finishAuthCodeExchange
  rw [if_neg hBound, if_pos hMismatch]

theorem handleTokenExchange_authcode_reduce (challengeOf : String → String)
    (secret : String) (nowMs : Nat) (freshToken : String)
    (req : TokenRequest) (s : TokenStore)
    (hGrant : req.grant_type = "authorization_code")
    (hCode : req.code ≠ "") (hCid : req.client_id ≠ "") :
    handleTokenExchange challengeOf secret nowMs freshToken req s
      = exchangeAuthCode challengeOf secret nowMs freshToken req s := by
  unfold handleTokenExchange
  rw [hGrant, if_neg (by decide)]
  rw [if_neg ?_]
  push_neg
  exact ⟨rfl, hCode, hCid⟩

/-- C8: in an `authorization_code` token exchange reaching the
redirect-binding check — the client is registered and the request passes
the PKCE / client-secret screening — a `redirect_uri` different from the
one bound to the stored authorization code fails `invalid_grant`
(HTTP 400) and leaves the store untouched: no token is issued and the
code is not consumed. -/
theorem redirect_uri_binding
    (challengeOf : String → String) (secret : String) (nowMs : Nat)
    (freshToken : String) (req : TokenRequest) (s : TokenStore)
    (client : ClientReg) (authData : AuthCodeData)
    (hGrant : req.grant_type = "authorization_code")
    (hCode : req.code ≠ "") (hCid : req.client_id ≠ "")
    (hClient : List.lookup req.client_id s.clients = some client)
    (hAuth : List.lookup req.code s.authCodes = some authData)
    (hBound : authData.client_id ≠ "")
    (hMismatch : authData.redirect_uri ≠ req.redirect_uri)
    (hPass : (authData.code_challenge ≠ "" ∧ req.code_verifier ≠ "")
        ∨ req.client_secret = "" ∨ req.client_secret = client.client_secret) :
    (∃ d, (handleTokenExchange challengeOf secret nowMs freshToken req s).1
        = .err 400 "invalid_grant" d) ∧
    (handleTokenExchange challengeOf secret nowMs freshToken req s).2 = s := by
  rw [handleTokenExchange_authcode_reduce challengeOf secret nowMs freshToken
    req s hGrant hCode hCid]
  unfold exchangeAuthCode
  rw [hClient]
  simp only [hAuth, Option.getD_some]
  by_cases hpk : authData.code_challenge ≠ "" ∧ req.code_verifier ≠ ""
  · rw [if_pos hpk]
    by_cases hm : authData.code_challenge_method = "S256"
        ∧ challengeOf req.code_verifier ≠ authData.code_challenge
    · rw [if_pos hm]
      exact ⟨⟨"PKCE verification failed", rfl⟩, rfl⟩
    · rw [if_neg hm, finishAuthCodeExchange_redirect_mismatch secret nowMs
        freshToken req authData s hBound hMismatch]
      exact ⟨⟨"Redirect URI mismatch", rfl⟩, rfl⟩
  · rw [if_neg hpk]
    have hsec : ¬(req.client_secret ≠ ""
        ∧ client.client_secret ≠ req.client_secret) := by
      rcases hPass with hp | hq | hr
      · exact absurd hp hpk
      · intro hc
        exact hc.1 hq
      · intro hc
        exact hc.2 hr.symm
    rw [if_neg hsec, finishAuthCodeExchange_redirect_mismatch secret nowMs
      freshToken req authData s hBound hMismatch]
    exact ⟨⟨"Redirect URI mismatch", rfl⟩, rfl⟩

/-- Concrete data for the C8 witness. -/
def c8Store : TokenStore :=
  { clients := [("client-1",
      ⟨"client-1", "sec-1", ["http://localhost/cb"], "Test Client", 0⟩)],
    authCodes := [("code-1",
      ⟨"client-1", "http://localhost/cb", "marvin-key", "", "", 0⟩)],
    refreshTokens := [] }

def c8Req : TokenRequest :=
  { grant_type := "authorization_code", code := "code-1",
    refresh_token := "", client_id := "client-1", client_secret := "",
    redirect_uri := "http://evil.example/cb", code_verifier := "" }

/-- Witness for C8: a concrete exchange whose `redirect_uri` differs from
the one stored with the code fails `invalid_grant` and does not change
the store. -/
theorem redirect_uri_binding_witness :
    (∃ d, (handleTokenExchange (fun v => v) "jwt-secret" 1700000000000
        "rt-1" c8Req c8Store).1 = .err 400 "invalid_grant" d) ∧
    (handleTokenExchange (fun v => v) "jwt-secret" 1700000000000
        "rt-1" c8Req c8Store).2 = c8Store :=
  redirect_uri_binding (fun v => v) "jwt-secret" 1700000000000 "rt-1"
    c8Req c8Store
    ⟨"client-1", "sec-1", ["http://localhost/cb"], "Test Client", 0⟩
    ⟨"client-1", "http://localhost/cb", "marvin-key", "", "", 0⟩
    rfl (by decide) (by decide) (by decide) (by decide) (by decide)
    (by decide) (Or.inr (Or.inl rfl))

/-- Stand-in for the platform primitive
`base64url(SHA-256(verifier))` (no padding) used in the C3 scenarios:
any fixed function works, since the source only ever compares its output
with the stored challenge string. -/
def c3ChallengeOf : String → String := fun v => "sha256url:" ++ v

/-- A store holding an authorization code whose PKCE challenge was
recorded with `code_challenge_method = "plain"` and whose challenge is
not the S256 hash of the verifier the client will send. -/
def c3Store : TokenStore :=
  { clients := [("client-1",
      ⟨"client-1", "sec-1", ["http://localhost/cb"], "Test Client", 0⟩)],
    authCodes := [("code-1",
      ⟨"client-1", "http://localhost/cb", "marvin-key",
        "stored-challenge", "plain", 0⟩)],
    refreshTokens := [] }

def c3Req : TokenRequest :=
  { grant_type := "authorization_code", code := "code-1",
    refresh_token := "", client_id := "client-1", client_secret := "",
    redirect_uri := "http://localhost/cb",
    code_verifier := "wrong-verifier" }

/-- Counterexample to C3 as stated: the stored code carries a PKCE
challenge, the supplied verifier does not hash to it
(`challengeOf "wrong-verifier" ≠ "stored-challenge"`), yet the exchange
SUCCEEDS, because the source only performs the hash comparison when the
stored `code_challenge_method` is exactly `"S256"`; with method
`"plain"` every verifier is accepted. -/
theorem pkce_any_verifier_rejected_counterexample :
    c3ChallengeOf "wrong-verifier" ≠ "stored-challenge" ∧
    (handleTokenExchange c3ChallengeOf "jwt-secret" 1700000000000 "rt-1"
      c3Req c3Store).1.isOk = true := by
  constructor
  · decide
  · decide

/-- C3 (amended): PKCE verification in the token exchange, restricted to
stored codes whose `code_challenge_method` is `"S256"` — the only case
in which the source compares hashes.  For such a code, an exchange
supplying the verifier that hashes to the stored challenge succeeds, an
exchange supplying any other non-empty verifier fails `invalid_grant`
(HTTP 400), and in both cases the supplied `client_secret` is never
compared (the outcome is the same for every `client_secret` value). -/
theorem pkce_verification_s256
    (challengeOf : String → String) (secret : String) (nowMs : Nat)
    (freshToken : String) (req : TokenRequest) (s : TokenStore)
    (client : ClientReg) (authData : AuthCodeData) (v : String)
    (hGrant : req.grant_type = "authorization_code")
    (hCode : req.code ≠ "") (hCid : req.client_id ≠ "")
    (hClient : List.lookup req.client_id s.clients = some client)
    (hAuth : List.lookup req.code s.authCodes = some authData)
    (hMethod : authData.code_challenge_method = "S256")
    (hChal : authData.code_challenge = challengeOf v)
    (hChalNe : authData.code_challenge ≠ "")
    (hv : v ≠ "")
    (hBound : authData.client_id ≠ "")
    (hRedir : authData.redirect_uri = req.redirect_uri) :
    (∀ cs : String,
      (handleTokenExchange challengeOf secret nowMs freshToken
        { req with code_verifier := v, client_secret := cs } s).1.isOk
        = true) ∧
    (∀ v' cs : String, v' ≠ "" →
      challengeOf v' ≠ authData.code_challenge →
      (handleTokenExchange challengeOf secret nowMs freshToken
        { req with code_verifier := v', client_secret := cs } s).1
        = .err 400 "invalid_grant" "PKCE verification failed") := by
  constructor
  · intro cs
    rw [handleTokenExchange_authcode_reduce challengeOf secret nowMs
      freshToken { req with code_verifier := v, client_secret := cs } s
      hGrant hCode hCid]
    simp only [exchangeAuthCode]
    rw [hClient]
    simp only [hAuth, Option.getD_some]
    rw [if_pos ⟨hChalNe, hv⟩]
    rw [if_neg (fun hm => hm.2 hChal.symm)]
    unfold finishAuthCodeExchange
    rw [if_neg hBound, if_neg (fun hne => hne hRedir)]
    rfl
  · intro v' cs hv' hne
    rw [handleTokenExchange_authcode_reduce challengeOf secret nowMs
      freshToken { req with code_verifier := v', client_secret := cs } s
      hGrant hCode hCid]
    simp only [exchangeAuthCode]
    rw [hClient]
    simp only [hAuth, Option.getD_some]
    rw [if_pos ⟨hChalNe, hv'⟩]
    rw [if_pos ⟨hMethod, hne⟩]

/-- Store for the C3 amended-claim witness: the stored challenge is
exactly `challengeOf` of the good verifier, with method `S256`. -/
def c3sStore : TokenStore :=
  { clients := [("client-1",
      ⟨"client-1", "sec-1", ["http://localhost/cb"], "Test Client", 0⟩)],
    authCodes := [("code-1",
      ⟨"client-1", "http://localhost/cb", "marvin-key",
        "sha256url:good-verifier", "S256", 0⟩)],
    refreshTokens := [] }

def c3sReq : TokenRequest :=
  { grant_type := "authorization_code", code := "code-1",
    refresh_token := "", client_id := "client-1", client_secret := "",
    redirect_uri := "http://localhost/cb", code_verifier := "" }

/-- The witness request with the matching verifier and a client secret
that does not match the registration. -/
def c3sGoodReq : TokenRequest :=
  { c3sReq with code_verifier := "good-verifier", client_secret := "not-the-secret" }

/-- The witness request with a wrong verifier. -/
def c3sBadReq : TokenRequest :=
  { c3sReq with code_verifier := "bad-verifier", client_secret := "not-the-secret" }

/-- Witness for the amended C3: with an S256-method code, the matching
verifier succeeds and a wrong verifier fails `invalid_grant`, both with
a `client_secret` that does not match the registration (showing it is
never compared). -/
theorem pkce_verification_s256_witness :
    (handleTokenExchange c3ChallengeOf "jwt-secret" 1700000000000 "rt-1"
      c3sGoodReq c3sStore).1.isOk = true ∧
    (handleTokenExchange c3ChallengeOf "jwt-secret" 1700000000000 "rt-1"
      c3sBadReq c3sStore).1
      = .err 400 "invalid_grant" "PKCE verification failed" := by
  have h := pkce_verification_s256 c3ChallengeOf "jwt-secret"
    1700000000000 "rt-1" c3sReq c3sStore
    ⟨"client-1", "sec-1", ["http://localhost/cb"], "Test Client", 0⟩
    ⟨"client-1", "http://localhost/cb", "marvin-key",
      "sha256url:good-verifier", "S256", 0⟩
    "good-verifier" rfl (by decide) (by decide) (by decide) (by decide)
    rfl (by decide) (by decide) (by decide) (by decide) rfl
  exact ⟨h.1 "not-the-secret",
    h.2 "bad-verifier" "not-the-secret" (by decide) (by decide)⟩

theorem finishAuthCodeExchange_ok_state (secret : String) (nowMs : Nat)
    (freshToken : String) (req : TokenRequest) (authData : AuthCodeData)
    (s : TokenStore)
    (h : (finishAuthCodeExchange secret nowMs freshToken req authData
        s).1.isOk = true) :
    (finishAuthCodeExchange secret nowMs freshToken req authData
        s).2.authCodes = kvDelete req.code s.authCodes ∧
    (finishAuthCodeExchange secret nowMs freshToken req authData
        s).2.clients = s.clients := by
  unfold finishAuthCodeExchange at h ⊢
  split_ifs at h ⊢
  · simp [ExchangeResult.isOk] at h
  · simp [ExchangeResult.isOk] at h
  · exact ⟨rfl, rfl⟩

theorem exchangeAuthCode_client_none (challengeOf : String → String)
    (secret : String) (nowMs : Nat) (freshToken : String)
    (req : TokenRequest) (s : TokenStore)
    (hClient : List.lookup req.client_id s.clients = none) :
    exchangeAuthCode challengeOf secret nowMs freshToken req s
      = (.err 401 "invalid_client" "", s) := by
  unfold exchangeAuthCode
  rw [hClient]

theorem exchangeAuthCode_client_some (challengeOf : String → String)
    (secret : String) (nowMs : Nat) (freshToken : String)
    (req : TokenRequest) (s : TokenStore) (client : ClientReg)
    (hClient : List.lookup req.client_id s.clients = some client) :
    exchangeAuthCode challengeOf secret nowMs freshToken req s
      = (if ((List.lookup req.code s.authCodes).getD
            emptyAuthData).code_challenge ≠ "" ∧ req.code_verifier ≠ "" then
          if ((List.lookup req.code s.authCodes).getD
              emptyAuthData).code_challenge_method = "S256"
            ∧ challengeOf req.code_verifier
              ≠ ((List.lookup req.code s.authCodes).getD
                emptyAuthData).code_challenge then
            (.err 400 "invalid_grant" "PKCE verification failed", s)
          else
            finishAuthCodeExchange secret nowMs freshToken req
              ((List.lookup req.code s.authCodes).getD emptyAuthData) s
        else if req.client_secret ≠ ""
            ∧ client.client_secret ≠ req.client_secret then
          (.err 401 "invalid_client" "", s)
        else
          finishAuthCodeExchange secret nowMs freshToken req
            ((List.lookup req.code s.authCodes).getD emptyAuthData) s) := by
  unfold exchangeAuthCode
  rw [hClient]

theorem exchangeAuthCode_ok_state (challengeOf : String → String)
    (secret : String) (nowMs : Nat) (freshToken : String)
    (req : TokenRequest) (s : TokenStore)
    (h : (exchangeAuthCode challengeOf secret nowMs freshToken req
        s).1.isOk = true) :
    (exchangeAuthCode challengeOf secret nowMs freshToken req
        s).2.authCodes = kvDelete req.code s.authCodes ∧
    (exchangeAuthCode challengeOf secret nowMs freshToken req
        s).2.clients = s.clients := by
  cases hc : List.lookup req.client_id s.clients with
  | none =>
    rw [exchangeAuthCode_client_none challengeOf secret nowMs freshToken
      req s hc] at h
    simp [ExchangeResult.isOk] at h
  | some client =>
    rw [exchangeAuthCode_client_some challengeOf secret nowMs freshToken
      req s client hc] at h ⊢
    split_ifs at h ⊢
    · simp [ExchangeResult.isOk] at h
    · exact finishAuthCodeExchange_ok_state _ _ _ _ _ _ h
    · simp [ExchangeResult.isOk] at h
    · exact finishAuthCodeExchange_ok_state _ _ _ _ _ _ h

theorem exchangeAuthCode_code_absent_not_ok (challengeOf : String → String)
    (secret : String) (nowMs : Nat) (freshToken : String)
    (req : TokenRequest) (s : TokenStore)
    (hNone : List.lookup req.code s.authCodes = none) :
    (exchangeAuthCode challengeOf secret nowMs freshToken req s).1.isOk
      = false := by
  cases hc : List.lookup req.client_id s.clients with
  | none =>
    rw [exchangeAuthCode_client_none challengeOf secret nowMs freshToken
      req s hc]
    rfl
  | some client =>
    rw [exchangeAuthCode_client_some challengeOf secret nowMs freshToken
      req s client hc]
    simp only [hNone, Option.getD_none]
    rw [if_neg (fun hcc => hcc.1 rfl)]
    by_cases hs : req.client_secret ≠ ""
        ∧ client.client_secret ≠ req.client_secret
    · rw [if_pos hs]
      rfl
    · rw [if_neg hs]
      unfold finishAuthCodeExchange
      rw [if_pos (show emptyAuthData.client_id = "" from rfl)]
      rfl

theorem exchangeAuthCode_code_absent_invalid_grant
    (challengeOf : String → String) (secret : String) (nowMs : Nat)
    (freshToken : String) (req : TokenRequest) (s : TokenStore)
    (client : ClientReg)
    (hNone : List.lookup req.code s.authCodes = none)
    (hClient : List.lookup req.client_id s.clients = some client)
    (hSecret : req.client_secret = ""
        ∨ req.client_secret = client.client_secret) :
    (exchangeAuthCode challengeOf secret nowMs freshToken req s).1
      = .err 400 "invalid_grant" "Authorization code expired or invalid" := by
  rw [exchangeAuthCode_client_some challengeOf secret nowMs freshToken
    req s client hClient]
  simp only [hNone, Option.getD_none]
  rw [if_neg (fun hcc => hcc.1 rfl)]
  have hs : ¬(req.client_secret ≠ ""
      ∧ client.client_secret ≠ req.client_secret) := by
    rcases hSecret with h1 | h2
    · exact fun hc => hc.1 h1
    · exact fun hc => hc.2 h2.symm
  rw [if_neg hs]
  unfold finishAuthCodeExchange
  rw [if_pos (show emptyAuthData.client_id = "" from rfl)]

theorem handleTokenExchange_authcode_ok_shape (challengeOf : String → String)
    (secret : String) (nowMs : Nat) (freshToken : String)
    (req : TokenRequest) (s : TokenStore)
    (hGrant : req.grant_type = "authorization_code")
    (hOk : (handleTokenExchange challengeOf secret nowMs freshToken req
        s).1.isOk = true) :
    req.code ≠ "" ∧ req.client_id ≠ "" ∧
    handleTokenExchange challengeOf secret nowMs freshToken req s
      = exchangeAuthCode challengeOf secret nowMs freshToken req s := by
  have hng : ¬ req.grant_type = "refresh_token" := by
    rw [hGrant]
    decide
  by_cases hcode : req.code = ""
  · exfalso
    unfold handleTokenExchange at hOk
    rw [if_neg hng, if_pos (Or.inr (Or.inl hcode))] at hOk
    simp [ExchangeResult.isOk] at hOk
  · by_cases hcid : req.client_id = ""
    · exfalso
      unfold handleTokenExchange at hOk
      rw [if_neg hng, if_pos (Or.inr (Or.inr hcid))] at hOk
      simp [ExchangeResult.isOk] at hOk
    · exact ⟨hcode, hcid, handleTokenExchange_authcode_reduce challengeOf
        secret nowMs freshToken req s hGrant hcode hcid⟩

/-- C2: an issued authorization code is single-use.  If an
`authorization_code` exchange presenting `req.code` succeeds, then
(1) the stored code has been deleted from the resulting store,
(2) no second `authorization_code` exchange presenting the same code —
whatever its other parameters, hash primitive, signing secret or fresh
values — can succeed on that store, and
(3) whenever such a second exchange passes the client screening (client
registered, supplied secret absent or matching), it fails with
`invalid_grant` (HTTP 400). -/
theorem auth_code_single_use
    (challengeOf : String → String) (secret : String) (nowMs : Nat)
    (freshToken : String) (req : TokenRequest) (s : TokenStore)
    (res : ExchangeResult) (s1 : TokenStore)
    (hGrant : req.grant_type = "authorization_code")
    (hRun : handleTokenExchange challengeOf secret nowMs freshToken req s
      = (res, s1))
    (hOk : res.isOk = true) :
    List.lookup req.code s1.authCodes = none ∧
    (∀ (ch2 : String → String) (secret2 : String) (n2 : Nat) (f2 : String)
        (req2 : TokenRequest),
      req2.grant_type = "authorization_code" → req2.code = req.code →
      (handleTokenExchange ch2 secret2 n2 f2 req2 s1).1.isOk = false) ∧
    (∀ (ch2 : String → String) (secret2 : String) (n2 : Nat) (f2 : String)
        (req2 : TokenRequest) (client2 : ClientReg),
      req2.grant_type = "authorization_code" → req2.code = req.code →
      req2.client_id ≠ "" →
      List.lookup req2.client_id s1.clients = some client2 →
      (req2.client_secret = ""
        ∨ req2.client_secret = client2.client_secret) →
      (handleTokenExchange ch2 secret2 n2 f2 req2 s1).1
        = .err 400 "invalid_grant" "Authorization code expired or invalid") := by
  have hOk' : (handleTokenExchange challengeOf secret nowMs freshToken req
      s).1.isOk = true := by
    rw [hRun]
    exact hOk
  obtain ⟨hcode, hcid, heq⟩ := handleTokenExchange_authcode_ok_shape
    challengeOf secret nowMs freshToken req s hGrant hOk'
  have hEx : exchangeAuthCode challengeOf secret nowMs freshToken req s
      = (res, s1) := by
    rw [← heq]
    exact hRun
  have hOkEx : (exchangeAuthCode challengeOf secret nowMs freshToken req
      s).1.isOk = true := by
    rw [hEx]
    exact hOk
  have hstate := exchangeAuthCode_ok_state challengeOf secret nowMs
    freshToken req s hOkEx
  rw [hEx] at hstate
  have hdel : s1.authCodes = kvDelete req.code s.authCodes := hstate.1
  have hnone : List.lookup req.code s1.authCodes = none := by
    rw [hdel]
    exact lookup_kvDelete_self req.code s.authCodes
  refine ⟨hnone, ?_, ?_⟩
  · intro ch2 secret2 n2 f2 req2 hGrant2 hsame
    have hng2 : ¬ req2.grant_type = "refresh_token" := by
      rw [hGrant2]
      decide
    by_cases hcode2 : req2.code = ""
    · unfold handleTokenExchange
      rw [if_neg hng2, if_pos (Or.inr (Or.inl hcode2))]
      rfl
    · by_cases hcid2 : req2.client_id = ""
      · unfold handleTokenExchange
        rw [if_neg hng2, if_pos (Or.inr (Or.inr hcid2))]
        rfl
      · rw [handleTokenExchange_authcode_reduce ch2 secret2 n2 f2 req2 s1
          hGrant2 hcode2 hcid2]
        exact exchangeAuthCode_code_absent_not_ok ch2 secret2 n2 f2 req2 s1
          (by rw [hsame]; exact hnone)
  · intro ch2 secret2 n2 f2 req2 client2 hGrant2 hsame hcid2 hClient2 hSec2
    have hcode2 : req2.code ≠ "" := by
      rw [hsame]
      exact hcode
    rw [handleTokenExchange_authcode_reduce ch2 secret2 n2 f2 req2 s1
      hGrant2 hcode2 hcid2]
    exact exchangeAuthCode_code_absent_invalid_grant ch2 secret2 n2 f2 req2
      s1 client2 (by rw [hsame]; exact hnone) hClient2 hSec2

/-- Concrete data for the C2 witness. -/
def c2Store : TokenStore :=
  { clients := [("client-1",
      ⟨"client-1", "sec-1", ["http://localhost/cb"], "Test Client", 0⟩)],
    authCodes := [("code-1",
      ⟨"client-1", "http://localhost/cb", "marvin-key", "", "", 0⟩)],
    refreshTokens := [] }

def c2Req : TokenRequest :=
  { grant_type := "authorization_code", code := "code-1",
    refresh_token := "", client_id := "client-1", client_secret := "sec-1",
    redirect_uri := "http://localhost/cb", code_verifier := "" }

/-- The store after the first (successful) exchange of the C2 witness. -/
def c2StoreAfter : TokenStore :=
  (handleTokenExchange (fun v => v) "jwt-secret" 1700000000000 "rt-1"
    c2Req c2Store).2

/-- Witness for C2: a concrete code is exchanged successfully once; it is
then gone from the store, and replaying the very same request fails with
`invalid_grant` (HTTP 400). -/
theorem auth_code_single_use_witness :
    List.lookup c2Req.code c2StoreAfter.authCodes = none ∧
    (handleTokenExchange (fun v => v) "jwt-secret" 1700000000001 "rt-2"
      c2Req c2StoreAfter).1.isOk = false ∧
    (handleTokenExchange (fun v => v) "jwt-secret" 1700000000001 "rt-2"
      c2Req c2StoreAfter).1
      = .err 400 "invalid_grant" "Authorization code expired or invalid" := by
  have h := auth_code_single_use (fun v => v) "jwt-secret" 1700000000000
    "rt-1" c2Req c2Store
    (handleTokenExchange (fun v => v) "jwt-secret" 1700000000000 "rt-1"
      c2Req c2Store).1
    c2StoreAfter rfl rfl (by decide)
  exact ⟨h.1,
    h.2.1 (fun v => v) "jwt-secret" 1700000000001 "rt-2" c2Req rfl rfl,
    h.2.2 (fun v => v) "jwt-secret" 1700000000001 "rt-2" c2Req
      ⟨"client-1", "sec-1", ["http://localhost/cb"], "Test Client", 0⟩
      rfl rfl (by decide) (by decide) (Or.inr rfl)⟩

theorem handleRefreshToken_found (secret : String) (nowMs : Nat)
    (freshToken refreshToken clientId : String) (s : TokenStore)
    (tokenData : RefreshData)
    (hNe : refreshToken ≠ "") (hCid : clientId ≠ "")
    (hLook : List.lookup refreshToken s.refreshTokens = some tokenData)
    (hMatch : tokenData.client_id = clientId) :
    handleRefreshToken secret nowMs freshToken refreshToken clientId s
      = (.ok ⟨generateJWT secret
            ⟨clientId, tokenData.api_key, nowMs / 1000,
              nowMs / 1000 + 24 * 3600⟩ (nowMs / 1000),
          "Bearer", 86400, freshToken, "marvin:read marvin:write"⟩,
        ⟨s.clients, s.authCodes,
          kvDelete refreshToken
            (kvPut freshToken ⟨clientId, tokenData.api_key, nowMs⟩
              s.refreshTokens)⟩) := by
  unfold handleRefreshToken
  rw [if_neg (by push_neg; exact ⟨hNe, hCid⟩)]
  simp only [hLook]
  rw [if_neg (fun hne => hne hMatch)]

theorem handleRefreshToken_not_found (secret : String) (nowMs : Nat)
    (freshToken refreshToken clientId : String) (s : TokenStore)
    (hNe : refreshToken ≠ "") (hCid : clientId ≠ "")
    (hLook : List.lookup refreshToken s.refreshTokens = none) :
    handleRefreshToken secret nowMs freshToken refreshToken clientId s
      = (.err 400 "invalid_grant" "Invalid or expired refresh token", s) := by
  unfold handleRefreshToken
  rw [if_neg (by push_neg; exact ⟨hNe, hCid⟩)]
  simp only [hLook]

/-- C4: refresh-token rotation.  A successful `refresh_token` exchange
issues exactly one new refresh token (the freshly minted value, which is
also the one returned in the response body) and deletes the presented
one, leaving every other stored refresh token untouched.  Afterwards the
old token is rejected with `invalid_grant` for every client id; the new
token succeeds on a subsequent refresh, after which it too is deleted and
rejected — it succeeds exactly once. -/
theorem refresh_token_rotation
    (secret : String) (s : TokenStore) (oldTok f1 f2 cid : String)
    (td : RefreshData) (n1 n2 : Nat)
    (hOld : List.lookup oldTok s.refreshTokens = some td)
    (hcid : td.client_id = cid)
    (hOldNe : oldTok ≠ "") (hCidNe : cid ≠ "")
    (hf1Old : f1 ≠ oldTok) (hf1Ne : f1 ≠ "") :
    (handleRefreshToken secret n1 f1 oldTok cid s).1.isOk = true ∧
    (∀ b, (handleRefreshToken secret n1 f1 oldTok cid s).1 = .ok b →
      b.refresh_token = f1) ∧
    List.lookup oldTok
      (handleRefreshToken secret n1 f1 oldTok cid s).2.refreshTokens
      = none ∧
    List.lookup f1
      (handleRefreshToken secret n1 f1 oldTok cid s).2.refreshTokens
      = some ⟨cid, td.api_key, n1⟩ ∧
    (∀ k, k ≠ f1 → k ≠ oldTok →
      List.lookup k
        (handleRefreshToken secret n1 f1 oldTok cid s).2.refreshTokens
        = List.lookup k s.refreshTokens) ∧
    (∀ (n : Nat) (f c : String), c ≠ "" →
      (handleRefreshToken secret n f oldTok c
        (handleRefreshToken secret n1 f1 oldTok cid s).2).1
        = .err 400 "invalid_grant" "Invalid or expired refresh token") ∧
    (handleRefreshToken secret n2 f2 f1 cid
      (handleRefreshToken secret n1 f1 oldTok cid s).2).1.isOk = true ∧
    List.lookup f1
      (handleRefreshToken secret n2 f2 f1 cid
        (handleRefreshToken secret n1 f1 oldTok cid s).2).2.refreshTokens
      = none ∧
    (∀ (n : Nat) (f c : String), c ≠ "" →
      (handleRefreshToken secret n f f1 c
        (handleRefreshToken secret n2 f2 f1 cid
          (handleRefreshToken secret n1 f1 oldTok cid s).2).2).1
        = .err 400 "invalid_grant" "Invalid or expired refresh token") := by
  have h1 := handleRefreshToken_found secret n1 f1 oldTok cid s td
    hOldNe hCidNe hOld hcid
  have hs1 : (handleRefreshToken secret n1 f1 oldTok cid s).2.refreshTokens
      = kvDelete oldTok
          (kvPut f1 ⟨cid, td.api_key, n1⟩ s.refreshTokens) := by
    rw [h1]
  have hLold : List.lookup oldTok
      (handleRefreshToken secret n1 f1 oldTok cid s).2.refreshTokens
      = none := by
    rw [hs1]
    exact lookup_kvDelete_self oldTok _
  have hLf1 : List.lookup f1
      (handleRefreshToken secret n1 f1 oldTok cid s).2.refreshTokens
      = some ⟨cid, td.api_key, n1⟩ := by
    rw [hs1, lookup_kvDelete_ne oldTok f1 _ hf1Old]
    exact lookup_kvPut_self f1 _ _
  have h2 := handleRefreshToken_found secret n2 f2 f1 cid
    (handleRefreshToken secret n1 f1 oldTok cid s).2
    ⟨cid, td.api_key, n1⟩ hf1Ne hCidNe hLf1 rfl
  have hs2 : (handleRefreshToken secret n2 f2 f1 cid
      (handleRefreshToken secret n1 f1 oldTok cid s).2).2.refreshTokens
      = kvDelete f1 (kvPut f2 ⟨cid, td.api_key, n2⟩
          (handleRefreshToken secret n1 f1 oldTok cid s).2.refreshTokens) := by
    rw [h2]
  have hLf1Gone : List.lookup f1
      (handleRefreshToken secret n2 f2 f1 cid
        (handleRefreshToken secret n1 f1 oldTok cid s).2).2.refreshTokens
      = none := by
    rw [hs2]
    exact lookup_kvDelete_self f1 _
  refine ⟨by rw [h1]; rfl, ?_, hLold, hLf1, ?_, ?_, by rw [h2]; rfl,
    hLf1Gone, ?_⟩
  · intro b hb
    rw [h1] at hb
    injection hb with hbody
    rw [← hbody]
  · intro k hk1 hk2
    rw [hs1, lookup_kvDelete_ne oldTok k _ hk2,
      lookup_kvPut_ne f1 k _ _ hk1]
  · intro n f c hc
    exact Prod.ext_iff.mp (handleRefreshToken_not_found secret n f oldTok c
      (handleRefreshToken secret n1 f1 oldTok cid s).2 hOldNe hc hLold)
      |>.1
  · intro n f c hc
    exact Prod.ext_iff.mp (handleRefreshToken_not_found secret n f f1 c
      (handleRefreshToken secret n2 f2 f1 cid
        (handleRefreshToken secret n1 f1 oldTok cid s).2).2 hf1Ne hc
      hLf1Gone) |>.1

/-- Concrete store for the C4 witness. -/
def c4Store : TokenStore :=
  { clients := [], authCodes := [],
    refreshTokens := [("rt-old", ⟨"client-1", "marvin-key", 0⟩)] }

/-- Witness for C4 on a concrete store: a refresh succeeds; the old token
is then rejected; the new token succeeds; reusing the new token after
that second rotation is rejected. -/
theorem refresh_token_rotation_witness :
    (handleRefreshToken "jwt-secret" 1000 "rt-1" "rt-old" "client-1"
      c4Store).1.isOk = true ∧
    (handleRefreshToken "jwt-secret" 3000 "rt-3" "rt-old" "client-1"
      (handleRefreshToken "jwt-secret" 1000 "rt-1" "rt-old" "client-1"
        c4Store).2).1
      = .err 400 "invalid_grant" "Invalid or expired refresh token" ∧
    (handleRefreshToken "jwt-secret" 2000 "rt-2" "rt-1" "client-1"
      (handleRefreshToken "jwt-secret" 1000 "rt-1" "rt-old" "client-1"
        c4Store).2).1.isOk = true ∧
    (handleRefreshToken "jwt-secret" 4000 "rt-4" "rt-1" "client-1"
      (handleRefreshToken "jwt-secret" 2000 "rt-2" "rt-1" "client-1"
        (handleRefreshToken "jwt-secret" 1000 "rt-1" "rt-old" "client-1"
          c4Store).2).2).1
      = .err 400 "invalid_grant" "Invalid or expired refresh token" := by
  have h := refresh_token_rotation "jwt-secret" c4Store "rt-old" "rt-1"
    "rt-2" "client-1" ⟨"client-1", "marvin-key", 0⟩ 1000 2000
    (by decide) rfl (by decide) (by decide) (by decide) (by decide)
  exact ⟨h.1, h.2.2.2.2.2.1 3000 "rt-3" "client-1" (by decide),
    h.2.2.2.2.2.2.1,
    h.2.2.2.2.2.2.2.2 4000 "rt-4" "client-1" (by decide)⟩

/-! ### Protocol Session Handler (`worker.ts` `handleMCPRequest` and the
`POST /` branch of `fetch`)

The JSON-RPC request carries `method`, optional `params` (with optional
`protocolVersion`, `name`, `arguments`) and an `id`.  `JSON.stringify`
is modelled by an abstract serializer `ser` over the payload syntax; the
text bodies the two test tools build (which embed an ISO timestamp) are
modelled as functions of a `now` string; `MCPToolHandler.handleToolCall`
(which catches every tool error internally and always returns an
envelope) is the oracle `tex : apiKey → toolName → argumentsJSON → text`;
the `marvin_test_connection` probe (a `try/catch` around
`getAccountInfo`, total either way) is the oracle `acct : apiKey → text`.
JS property access on `undefined` throws; a thrown error is the
`StepOutcome.thrown` constructor carrying the message, which the
top-level `catch` turns into a `-32603` JSON-RPC error delivered with
HTTP status 200. -/

structure UserInfo where
  amazing_marvin_api_key : String
  deriving Repr, DecidableEq

structure MCPParams where
  protocolVersion : Option String
  name : Option String
  arguments : Option String
  deriving Repr, DecidableEq

structure MCPReq where
  method : String
  params : Option MCPParams
  id : Option Nat
  deriving Repr, DecidableEq

inductive RpcResult where
  | initRes (protocolVersion : String)
  | toolsListRes
  | pingRes
  | promptsRes
  | resourcesRes
  | contentText (text : String)
  deriving Repr, DecidableEq

inductive Payload where
  | res (id : Option Nat) (result : RpcResult)
  | err (id : Option Nat) (code : Int) (message : String)
  deriving Repr, DecidableEq

inductive StepOutcome where
  | notif
  | ok (result : RpcResult)
  | thrown (message : String)
  deriving Repr, DecidableEq

/-- Message of the `TypeError` raised by `params.protocolVersion` when
the request has no `params` field (the exact JS wording is incidental;
only the resulting `-32603` error code is observable in the claim). -/
def noParamsTypeErrorMsg : String :=
  "TypeError: cannot read protocolVersion of undefined"

/-- `params.arguments or empty object` default. -/
def emptyArgsText : String := "\x7b\x7d"

/-- Serialized body built by the `test_connection` carve-out (a JSON
object embedding `new Date().toISOString()`). -/
def testConnectionText (now : String) : String :=
  "status success, MCP server connection test successful, " ++ now

/-- Serialized body of the `auth_required` answer of
`marvin_test_connection` when no API key is available. -/
def marvinAuthRequiredText (now : String) : String :=
  "status auth_required, Amazing Marvin API key is required, " ++ now

/-- The dispatch core of `handleMCPRequest` (worker.ts lines 216-413):
everything inside the `try`, up to but excluding response framing. -/
def mcpStep (tex : String → String → String → String)
    (acct : String → String) (now : String)
    (userInfo : Option UserInfo) (req : MCPReq) : StepOutcome :=
  if req.method = "initialize" then
    match req.params with
    | none => .thrown noParamsTypeErrorMsg
    | some p =>
      let requestedVersion :=
        match p.protocolVersion with
        | some v => if v = "" then "2024-11-05" else v
        | none => "2024-11-05"
      .ok (.initRes requestedVersion)
  else if req.method = "tools/list" then .ok .toolsListRes
  else if req.method = "ping" then .ok .pingRes
  else if req.method = "prompts/list" then .ok .promptsRes
  else if req.method = "resources/list" then .ok .resourcesRes
  else if req.method = "notifications/initialized" then .notif
  else if req.method = "tools/call" then
    let toolName :=
      match req.params with
      | none => ""
      | some p => p.name.getD ""
    if toolName = "" then .thrown "Tool name is required"
    else if toolName = "test_connection" then
      .ok (.contentText (testConnectionText now))
    else if toolName = "marvin_test_connection" then
      match userInfo with
      | none => .ok (.contentText (marvinAuthRequiredText now))
      | some ui =>
        if ui.amazing_marvin_api_key = "" then
          .ok (.contentText (marvinAuthRequiredText now))
        else
          .ok (.contentText (acct ui.amazing_marvin_api_key))
    else
      match userInfo with
      | none => .thrown "Authentication required for tool calls"
      | some ui =>
        let args :=
          match req.params with
          | none => emptyArgsText
          | some p => p.arguments.getD emptyArgsText
        .ok (.contentText (tex ui.amazing_marvin_api_key toolName args))
  else .thrown ("Unknown method: " ++ req.method)

structure HttpResponse where
  status : Nat
  contentType : Option String
  body : Option String
  deriving Repr, DecidableEq

/-- The single-event stream envelope around a serialized payload: an
absent payload is an immediately-closed empty stream. -/
def sseFrame : Option String → String
  | none => ""
  | some payloadText => "data: " ++ payloadText ++ "\n\n"

/-- `handleMCPRequest`: runs the dispatch core, then frames the one
JSON-RPC response object — built before and independently of the
transport branch, exactly as in the source — either as a single SSE
event (`data: <json>` + blank line, `text/event-stream`, 200) or as a
buffered JSON body (200); a notification produces an empty closed
stream (SSE) or an empty 204 (buffered); a caught exception produces
the `-32603` error payload, still with outer status 200. -/
def handleMCPRequest (tex : String → String → String → String)
    (acct : String → String) (ser : Payload → String) (now : String)
    (userInfo : Option UserInfo) (req : MCPReq) (supportsSSE : Bool) :
    HttpResponse :=
  match mcpStep tex acct now userInfo req with
  | .notif =>
    if supportsSSE then
      { status := 200, contentType := some "text/event-stream",
        body := some "" }
    else
      { status := 204, contentType := none, body := none }
  | .ok result =>
    let response : Payload := .res req.id result
    if supportsSSE then
      { status := 200, contentType := some "text/event-stream",
        body := some ("data: " ++ ser response ++ "\n\n") }
    else
      { status := 200, contentType := some "application/json",
        body := some (ser response) }
  | .thrown msg =>
    let errorResponse : Payload := .err req.id (-32603) msg
    if supportsSSE then
      { status := 200, contentType := some "text/event-stream",
        body := some ("data: " ++ ser errorResponse ++ "\n\n") }
    else
      { status := 200, contentType := some "application/json",
        body := some (ser errorResponse) }

/-- The hardcoded upstream API key of worker.ts line 184. -/
def hardcodedApiKey : String := "7jRRMJUcqfAxQTFABtEMytsAf4I="

/-- `POST /` branch of `fetch` (worker.ts lines 172-188) after the body
has been parsed: the source computes `requiresAuth = false` with the
comment "Disable all auth checks since API key is hardcoded", never
reads the Authorization header, fixes `userInfo` to the hardcoded API
key and calls `handleMCPRequest` with it. -/
def fetchRootPost (tex : String → String → String → String)
    (acct : String → String) (ser : Payload → String) (now : String)
    (authHeader : Option String) (req : MCPReq) (supportsSSE : Bool) :
    HttpResponse :=
  let _requiresAuth : Bool := false
  let _unusedAuthHeader := authHeader
  let userInfo : Option UserInfo := some ⟨hardcodedApiKey⟩
  handleMCPRequest tex acct ser now userInfo req supportsSSE

/-- Parameters of the C1 failing input. -/
def c1Params : MCPParams :=
  { protocolVersion := none, name := some "get_tasks", arguments := none }

/-- The C1 failing input: a `tools/call` of the protected tool
`get_tasks` (request id 3) with no bearer token. -/
def c1Req : MCPReq :=
  { method := "tools/call", params := some c1Params, id := some 3 }

/-- C1 (documents the defect): a `tools/call` for the non-test tool
`get_tasks` carrying NO bearer token is not rejected — the dispatch core
executes the tool with the hardcoded API key, the response is identical
for every Authorization header value, and the buffered reply is a
JSON-RPC result (not an authentication error), for every tool oracle. -/
theorem tools_call_bypasses_token_auth
    (tex : String → String → String → String) (acct : String → String)
    (ser : Payload → String) (now : String) (authHeader : Option String)
    (supportsSSE : Bool) :
    mcpStep tex acct now (some ⟨hardcodedApiKey⟩) c1Req
      = .ok (.contentText (tex hardcodedApiKey "get_tasks" emptyArgsText)) ∧
    fetchRootPost tex acct ser now authHeader c1Req supportsSSE
      = fetchRootPost tex acct ser now none c1Req supportsSSE ∧
    fetchRootPost tex acct ser now authHeader c1Req false
      = { status := 200, contentType := some "application/json",
          body := some (ser (.res (some 3)
            (.contentText (tex hardcodedApiKey "get_tasks"
              emptyArgsText)))) } :=
  ⟨rfl, rfl, rfl⟩

/-- C5: transport symmetry.  For every input, the session handler builds
one payload `p` (possibly absent, for the notification): the SSE response
is exactly `p` serialized and wrapped in the single-event envelope, the
buffered response is exactly `p` serialized, and only framing (content
type / envelope / empty-response status) differs between the two modes. -/
theorem transport_symmetry
    (tex : String → String → String → String) (acct : String → String)
    (ser : Payload → String) (now : String) (userInfo : Option UserInfo)
    (req : MCPReq) :
    ∃ p : Option Payload,
      (handleMCPRequest tex acct ser now userInfo req true).body
        = some (sseFrame (p.map ser)) ∧
      (handleMCPRequest tex acct ser now userInfo req false).body
        = p.map ser ∧
      (handleMCPRequest tex acct ser now userInfo req true).contentType
        = some "text/event-stream" ∧
      (handleMCPRequest tex acct ser now userInfo req true).status = 200 ∧
      (p.isSome = true →
        (handleMCPRequest tex acct ser now userInfo req false).contentType
          = some "application/json" ∧
        (handleMCPRequest tex acct ser now userInfo req false).status
          = 200) := by
  unfold handleMCPRequest
  cases h : mcpStep tex acct now userInfo req with
  | notif =>
    exact ⟨none, rfl, rfl, rfl, rfl, fun hs => by simp at hs⟩
  | ok result =>
    exact ⟨some (.res req.id result), rfl, rfl, rfl, rfl,
      fun _ => ⟨rfl, rfl⟩⟩
  | thrown msg =>
    exact ⟨some (.err req.id (-32603) msg), rfl, rfl, rfl, rfl,
      fun _ => ⟨rfl, rfl⟩⟩

/-- A `params` object that lacks `protocolVersion`. -/
def c9EmptyParams : MCPParams :=
  { protocolVersion := none, name := none, arguments := none }

/-- C9 request with a `params` object that lacks `protocolVersion`. -/
def c9ReqDefaulted : MCPReq :=
  { method := "initialize", params := some c9EmptyParams, id := some 1 }

/-- C9 request with no `params` field at all. -/
def c9ReqNoParams : MCPReq :=
  { method := "initialize", params := none, id := some 1 }

/-- C9: `initialize` with a `params` object lacking `protocolVersion`
echoes the default version 2024-11-05; `initialize` with no `params` at
all throws while reading `params.protocolVersion`, and the caller
receives the `-32603` JSON-RPC error payload with HTTP status 200 — not
an `initialize` result. -/
theorem init_params_edge_cases
    (tex : String → String → String → String) (acct : String → String)
    (ser : Payload → String) (now : String) (userInfo : Option UserInfo) :
    handleMCPRequest tex acct ser now userInfo c9ReqDefaulted false
      = { status := 200, contentType := some "application/json",
          body := some (ser (.res (some 1) (.initRes "2024-11-05"))) } ∧
    handleMCPRequest tex acct ser now userInfo c9ReqNoParams false
      = { status := 200, contentType := some "application/json",
          body := some (ser (.err (some 1) (-32603)
            noParamsTypeErrorMsg)) } :=
  ⟨rfl, rfl⟩

/-! ### Resource Client (`marvin-api.ts`): batch operations and cache
invalidation.

`batchMarkDone` / `batchCreateTasks` fan out over the items with
`Promise.all`, catching each item's failure individually.  The outcome
of one upstream call is an oracle: `markOk id` tells whether
`markTaskDone id` succeeds, `createRes spec` is `some cleanTask` when
`createTask spec` succeeds and `none` when it throws.  Task
specifications and created tasks are opaque strings. -/

structure BatchResponse (α : Type) where
  data : α
  message : String
  success : Bool
  deriving Repr

/-- `MarvinAPIClient.batchMarkDone` (lines 548-562): one boolean per id,
`true`/`false` for caught success/failure, with the `Marked k/N` summary
over the count of `true` results. -/
def batchMarkDone (markOk : String → Bool) (taskIds : List String) :
    BatchResponse (List Bool) :=
  let results := taskIds.map markOk
  let successCount := (results.filter (fun r => r)).length
  { data := results,
    message := "Marked " ++ toString successCount ++ "/"
      ++ toString taskIds.length ++ " tasks as completed",
    success := true }

/-- `MarvinAPIClient.batchCreateTasks` (lines 603-617): a caught failure
becomes `null`; nulls are filtered out of the returned data, and the
summary reports `Created k/N`. -/
def batchCreateTasks (createRes : String → Option String)
    (tasksData : List String) : BatchResponse (List String) :=
  let results := tasksData.map createRes
  let successfulTasks := results.filterMap id
  { data := successfulTasks,
    message := "Created " ++ toString successfulTasks.length ++ "/"
      ++ toString tasksData.length ++ " tasks",
    success := true }

theorem map_filter_true_length (markOk : String → Bool) (l : List String) :
    ((l.map markOk).filter (fun r => r)).length
      + (l.filter (fun i => !(markOk i))).length = l.length := by
  induction l with
  | nil => rfl
  | cons a t ih =>
    cases h : markOk a <;> simp [List.filter_cons, h] <;> omega

theorem map_filter_false_length (markOk : String → Bool) (l : List String) :
    ((l.map markOk).filter (fun r => !r)).length
      = (l.filter (fun i => !(markOk i))).length := by
  induction l with
  | nil => rfl
  | cons a t ih =>
    cases h : markOk a <;> simp [List.filter_cons, h, ih]

theorem map_filterMap_id (createRes : String → Option String)
    (l : List String) :
    (l.map createRes).filterMap id = l.filterMap createRes := by
  induction l with
  | nil => rfl
  | cons a t ih =>
    cases h : createRes a <;> simp [List.filterMap_cons, h, ih]

theorem filterMap_length_add (createRes : String → Option String)
    (l : List String) :
    (l.filterMap createRes).length
      + (l.filter (fun a => (createRes a).isNone)).length = l.length := by
  induction l with
  | nil => rfl
  | cons a t ih =>
    cases h : createRes a <;>
      simp [List.filterMap_cons, List.filter_cons, h] <;> omega

/-- C6: batch partial failure.  For any per-item outcomes in which `M`
of the `N` items fail: `batch_mark_done` returns one boolean per input
id, in order (so no failure aborts the remaining items), with exactly
`N-M` `true` entries and `M` `false` entries, and its summary reports
`N-M` of `N`; `batch_create_tasks` attempts every specification,
returns exactly the `N-M` successfully created tasks, and its summary
reports `N-M` of `N` (hence `M` failures). -/
theorem batch_partial_failure
    (markOk : String → Bool) (taskIds : List String)
    (createRes : String → Option String) (tasksData : List String) :
    ((batchMarkDone markOk taskIds).data = taskIds.map markOk
      ∧ (batchMarkDone markOk taskIds).data.length = taskIds.length
      ∧ ((batchMarkDone markOk taskIds).data.filter (fun r => r)).length
          = taskIds.length - (taskIds.filter (fun i => !(markOk i))).length
      ∧ ((batchMarkDone markOk taskIds).data.filter (fun r => !r)).length
          = (taskIds.filter (fun i => !(markOk i))).length
      ∧ (batchMarkDone markOk taskIds).message
          = "Marked "
            ++ toString (taskIds.length
              - (taskIds.filter (fun i => !(markOk i))).length)
            ++ "/" ++ toString taskIds.length ++ " tasks as completed")
    ∧ ((batchCreateTasks createRes tasksData).data
        = tasksData.filterMap createRes
      ∧ (batchCreateTasks createRes tasksData).data.length
          = tasksData.length
            - (tasksData.filter (fun t => (createRes t).isNone)).length
      ∧ (batchCreateTasks createRes tasksData).message
          = "Created "
            ++ toString (tasksData.length
              - (tasksData.filter (fun t => (createRes t).isNone)).length)
            ++ "/" ++ toString tasksData.length ++ " tasks") := by
  have hm := map_filter_true_length markOk taskIds
  have hmTrue : ((taskIds.map markOk).filter (fun r => r)).length
      = taskIds.length
        - (taskIds.filter (fun i => !(markOk i))).length := by omega
  have hc := filterMap_length_add createRes tasksData
  have hcLen : (tasksData.filterMap createRes).length
      = tasksData.length
        - (tasksData.filter (fun t => (createRes t).isNone)).length := by
    omega
  refine ⟨⟨rfl, by simp [batchMarkDone], ?_, ?_, ?_⟩, ⟨?_, ?_, ?_⟩⟩
  · exact hmTrue
  · exact map_filter_false_length markOk taskIds
  · simp only [batchMarkDone, hmTrue]
  · simp only [batchCreateTasks, map_filterMap_id]
  · simp only [batchCreateTasks, map_filterMap_id, hcLen]
  · simp only [batchCreateTasks, map_filterMap_id, hcLen]

/-- `MarvinAPIClient.invalidateCache` (marvin-api.ts lines 655-671): the
KV store supports no key listing, so the method ignores its prefix-list
argument entirely (`ps` below) and deletes a fixed, hand-enumerated set
of five keys derived from the current date. -/
def invalidateCache (today : String) (ps : List String) : List String :=
  let _prefixList := ps
  ["tasks:" ++ today, "tasks:" ++ today ++ ":raw", "projects:all",
    "all_tasks:none", "completed:" ++ today]

/-- The fixed eviction set. -/
def cacheKeysDeletedByWrite (today : String) : List String :=
  ["tasks:" ++ today, "tasks:" ++ today ++ ":raw", "projects:all",
    "all_tasks:none", "completed:" ++ today]

/-- Cache keys deleted by `createTask` (line 424). -/
def createTaskCacheDeletes (today : String) : List String :=
  invalidateCache today ["tasks:", "all_tasks:"]

/-- Cache keys deleted by `markTaskDone` (line 449). -/
def markTaskDoneCacheDeletes (today : String) : List String :=
  invalidateCache today ["tasks:", "completed:"]

/-- Cache keys deleted by `deleteTask` (line 490). -/
def deleteTaskCacheDeletes (today : String) : List String :=
  invalidateCache today ["tasks:", "all_tasks:", "completed:"]

/-- Cache keys deleted by `createProject` (line 511). -/
def createProjectCacheDeletes (today : String) : List String :=
  invalidateCache today ["projects:"]

theorem string_ne_of_take (n : Nat) (x y : String) (lx ly : List Char)
    (hx : x.data.take n = lx) (hy : y.data.take n = ly) (hne : lx ≠ ly) :
    x ≠ y := by
  intro he
  rw [← hx, ← hy, he] at hne
  exact hne rfl

/-- C10: every write operation that invalidates the cache deletes
exactly the same five keys — today's `tasks:<date>` and
`tasks:<date>:raw`, `projects:all`, `all_tasks:none`, today's
`completed:<date>` — regardless of the prefix list passed to
`invalidateCache` (which ignores its argument), and nothing outside that
fixed set is ever evicted: membership in the deleted set is exactly
those five keys, and in particular `due_items:<date>`, `labels:all`,
`categories:all` and label-parameterized `all_tasks:<label>` keys are
never deleted. -/
theorem cache_eviction_fixed_keys (today : String) (ps : List String) :
    invalidateCache today ps = cacheKeysDeletedByWrite today ∧
    createTaskCacheDeletes today = cacheKeysDeletedByWrite today ∧
    markTaskDoneCacheDeletes today = cacheKeysDeletedByWrite today ∧
    deleteTaskCacheDeletes today = cacheKeysDeletedByWrite today ∧
    createProjectCacheDeletes today = cacheKeysDeletedByWrite today ∧
    (∀ k, k ∈ cacheKeysDeletedByWrite today ↔
      (k = "tasks:" ++ today ∨ k = "tasks:" ++ today ++ ":raw"
        ∨ k = "projects:all" ∨ k = "all_tasks:none"
        ∨ k = "completed:" ++ today)) ∧
    (∀ d, ("due_items:" ++ d) ∉ cacheKeysDeletedByWrite today) ∧
    ("labels:all" : String) ∉ cacheKeysDeletedByWrite today ∧
    ("categories:all" : String) ∉ cacheKeysDeletedByWrite today ∧
    (∀ label, label ≠ "none" →
      ("all_tasks:" ++ label) ∉ cacheKeysDeletedByWrite today) := by
  refine ⟨rfl, rfl, rfl, rfl, rfl, ?_, ?_, ?_, ?_, ?_⟩
  · intro k
    simp [cacheKeysDeletedByWrite]
  · intro d hmem
    simp only [cacheKeysDeletedByWrite, List.mem_cons,
      List.not_mem_nil, or_false] at hmem
    rcases hmem with h | h | h | h | h
    · exact absurd h (string_ne_of_take 1 _ _ ['d'] ['t'] rfl rfl (by decide))
    · exact absurd h (string_ne_of_take 1 _ _ ['d'] ['t'] rfl rfl (by decide))
    · exact absurd h (string_ne_of_take 1 _ _ ['d'] ['p'] rfl rfl (by decide))
    · exact absurd h (string_ne_of_take 1 _ _ ['d'] ['a'] rfl rfl (by decide))
    · exact absurd h (string_ne_of_take 1 _ _ ['d'] ['c'] rfl rfl (by decide))
  · intro hmem
    simp only [cacheKeysDeletedByWrite, List.mem_cons,
      List.not_mem_nil, or_false] at hmem
    rcases hmem with h | h | h | h | h
    · exact absurd h (string_ne_of_take 1 _ _ ['l'] ['t'] rfl rfl (by decide))
    · exact absurd h (string_ne_of_take 1 _ _ ['l'] ['t'] rfl rfl (by decide))
    · exact absurd h (string_ne_of_take 1 _ _ ['l'] ['p'] rfl rfl (by decide))
    · exact absurd h (string_ne_of_take 1 _ _ ['l'] ['a'] rfl rfl (by decide))
    · exact absurd h (string_ne_of_take 1 _ _ ['l'] ['c'] rfl rfl (by decide))
  · intro hmem
    simp only [cacheKeysDeletedByWrite, List.mem_cons,
      List.not_mem_nil, or_false] at hmem
    rcases hmem with h | h | h | h | h
    · exact absurd h (string_ne_of_take 1 _ _ ['c'] ['t'] rfl rfl (by decide))
    · exact absurd h (string_ne_of_take 1 _ _ ['c'] ['t'] rfl rfl (by decide))
    · exact absurd h (string_ne_of_take 1 _ _ ['c'] ['p'] rfl rfl (by decide))
    · exact absurd h (string_ne_of_take 1 _ _ ['c'] ['a'] rfl rfl (by decide))
    · exact absurd h (string_ne_of_take 2 _ _ ['c', 'a'] ['c', 'o']
        rfl rfl (by decide))
  · intro label hlabel hmem
    simp only [cacheKeysDeletedByWrite, List.mem_cons,
      List.not_mem_nil, or_false] at hmem
    rcases hmem with h | h | h | h | h
    · exact absurd h (string_ne_of_take 1 _ _ ['a'] ['t'] rfl rfl (by decide))
    · exact absurd h (string_ne_of_take 1 _ _ ['a'] ['t'] rfl rfl (by decide))
    · exact absurd h (string_ne_of_take 1 _ _ ['a'] ['p'] rfl rfl (by decide))
    · refine hlabel ?_
      have h2 := congrArg String.data h
      simp only [String.data_append] at h2
      exact String.ext (List.append_cancel_left h2)
    · exact absurd h (string_ne_of_take 1 _ _ ['a'] ['c'] rfl rfl (by decide))

/-- Witness for C10 at a concrete date, prefix list, non-deleted date
key, and non-`none` label. -/
theorem cache_eviction_fixed_keys_witness :
    invalidateCache "2026-10-11" ["tasks:"]
      = cacheKeysDeletedByWrite "2026-10-11" ∧
    ("due_items:" ++ "2026-10-11")
      ∉ cacheKeysDeletedByWrite "2026-10-11" ∧
    ("all_tasks:" ++ "work") ∉ cacheKeysDeletedByWrite "2026-10-11" := by
  have h := cache_eviction_fixed_keys "2026-10-11" ["tasks:"]
  exact ⟨h.1, h.2.2.2.2.2.2.1 "2026-10-11",
    h.2.2.2.2.2.2.2.2.2 "work" (by decide)⟩

/-- Witness for C5 at a concrete request (`ping`, id 7) and concrete
oracles. -/
theorem transport_symmetry_witness :
    ∃ p : Option Payload,
      (handleMCPRequest (fun _ _ _ => "T") (fun _ => "A") (fun _ => "P")
        "now" none ⟨"ping", none, some 7⟩ true).body
        = some (sseFrame (p.map (fun _ => "P"))) ∧
      (handleMCPRequest (fun _ _ _ => "T") (fun _ => "A") (fun _ => "P")
        "now" none ⟨"ping", none, some 7⟩ false).body
        = p.map (fun _ => "P") ∧
      (handleMCPRequest (fun _ _ _ => "T") (fun _ => "A") (fun _ => "P")
        "now" none ⟨"ping", none, some 7⟩ true).contentType
        = some "text/event-stream" ∧
      (handleMCPRequest (fun _ _ _ => "T") (fun _ => "A") (fun _ => "P")
        "now" none ⟨"ping", none, some 7⟩ true).status = 200 ∧
      (p.isSome = true →
        (handleMCPRequest (fun _ _ _ => "T") (fun _ => "A") (fun _ => "P")
          "now" none ⟨"ping", none, some 7⟩ false).contentType
          = some "application/json" ∧
        (handleMCPRequest (fun _ _ _ => "T") (fun _ => "A") (fun _ => "P")
          "now" none ⟨"ping", none, some 7⟩ false).status = 200) :=
  transport_symmetry (fun _ _ _ => "T") (fun _ => "A") (fun _ => "P")
    "now" none ⟨"ping", none, some 7⟩

end MarvinMCP
